import Mathlib

/-!
Shallow embedding of the Deep_Secure authenticity-scoring pipeline
(`src/backend/app/detection_engine.py` and `src/backend/app/geospatial_engine.py`).

Modelling conventions:
* Python floats are modelled as rationals (`ℚ`); all arithmetic in the two
  engines is exact on the values the code produces, so no rounding is modelled.
* A decoded video frame is opaque to the embedded code: every pixel-level
  operation performed by the external cv2/numpy libraries (face detection,
  luminance, high-pass filtering, optical flow) is a parameter of the model,
  bundled in the `CV` structure.  The engines' own control flow and arithmetic
  are embedded faithfully.
* Python dicts with string keys are association lists looked up by first match
  (dict keys are unique in all the code modelled here).
* `np.max` on an empty array raises `ValueError`; this is the one exception
  source inside the embedded code, modelled with `Except`.
* `datetime.now()` is an external input, passed as a rational timestamp
  (seconds since an arbitrary epoch).
-/

namespace DeepSecure

/-- A decoded frame.  Its pixel content is only ever consumed by external cv2
calls, which are parameters of the model (`CV`), so the frame itself is just a
token. -/
abbrev Frame := Nat

/-- `np.mean` over a nonempty list of rationals (the engines only take means of
nonempty lists on non-raising paths). -/
def npMean (l : List ℚ) : ℚ := l.sum / l.length

/-- `np.var` (population variance): mean of squared deviations from the mean. -/
def npVar (l : List ℚ) : ℚ := npMean (l.map fun x => (x - npMean l) ^ 2)

/-- `np.max`: `none` models the `ValueError` numpy raises on an empty array. -/
def npMax : List ℚ → Option ℚ
  | [] => none
  | x :: xs => some (xs.foldl max x)

/-- A `SignalReport`: a Python dict from metric name to float. -/
abbrev SignalReport := List (String × ℚ)

/-- Python `dict.get(key, default)` on a signal report. -/
def getD (l : SignalReport) (k : String) (d : ℚ) : ℚ :=
  match l with
  | [] => d
  | (k', v) :: t => if k' = k then v else getD t k d

/-- Python `key in dict` / `dict[key]` on a signal report: first-match lookup. -/
def lookupMetric (l : SignalReport) (k : String) : Option ℚ :=
  match l with
  | [] => none
  | (k', v) :: t => if k' = k then some v else lookupMetric t k

/-- Python `dict.get(key, {})` on the analysis-results mapping. -/
def getReport (l : List (String × SignalReport)) (k : String) : SignalReport :=
  match l with
  | [] => []
  | (k', v) :: t => if k' = k then v else getReport t k

/-- A JSON-like value, used to model the heterogeneous Python dicts the two
entry points return. -/
inductive Value where
  | null : Value
  | num : ℚ → Value
  | str : String → Value
  | list : List Value → Value
  | dict : List (String × Value) → Value

/-- A returned Python dict record. -/
abbrev PyDict := List (String × Value)

/-- Field lookup on a returned record (`record["k"]` presence and value). -/
def getF (r : PyDict) (k : String) : Option Value :=
  match r with
  | [] => none
  | (k', v) :: t => if k' = k then some v else getF t k

/-- Extract a numeric field value. -/
def asNum : Option Value → Option ℚ
  | some (Value.num q) => some q
  | _ => none

/-- Extract a string field value. -/
def asStr : Option Value → Option String
  | some (Value.str s) => some s
  | _ => none

/-- Embed a signal report into a returned record value. -/
def embedReport (r : SignalReport) : Value :=
  Value.dict (r.map fun p => (p.1, Value.num p.2))

/-- The cv2/numpy pixel-level primitives the detection engine calls on frames;
external library behaviour, hence parameters of the model. -/
structure CV where
  /-- number of face regions `detect_faces` finds in a frame -/
  detect_faces : Frame → Nat
  /-- `np.mean` of the LAB L-channel of a frame -/
  mean_luminance : Frame → ℚ
  /-- `np.std(filter2D(gray, high-pass)) / 255.0` for a frame -/
  artifact_score : Frame → ℚ
  /-- mean Farneback optical-flow magnitude between two consecutive frames -/
  flow_mean_mag : Frame → Frame → ℚ

/-- A video source as the decoder exposes it: `CAP_PROP_FRAME_COUNT` and the
result of each sequential `cap.read()` call (`none` = `ret` is `False`).
An unopenable file reports `total_frames = 0`. -/
structure Video where
  total_frames : Nat
  reads : Nat → Option Frame

/-- The `while` loop of `extract_frames` (lines 27-32).  `fuel` counts the
remaining iterations allowed by `frame_count < total_frames`. -/
def extractLoop (reads : Nat → Option Frame) (interval maxf : Nat) :
    Nat → Nat → List Frame → List Frame
  | 0, _, frames => frames
  | fuel + 1, count, frames =>
    if frames.length < maxf then
      match reads count with
      | some f =>
        extractLoop reads interval maxf fuel (count + 1)
          (if count % interval = 0 then frames ++ [f] else frames)
      | none => extractLoop reads interval maxf fuel (count + 1) frames
    else frames

/-- `extract_frames` (detection_engine.py lines 19-35). -/
def extract_frames (v : Video) (max_frames : Nat) : List Frame :=
  let total_frames := v.total_frames
  let frame_interval := Nat.max 1 (total_frames / max_frames)
  extractLoop v.reads frame_interval max_frames total_frames 0 []

/-- `analyze_face_consistency` (lines 43-64). -/
def analyze_face_consistency (cv : CV) (frames : List Frame) : SignalReport :=
  if frames.length < 2 then
    [("consistency_score", 0), ("face_count_variance", 0)]
  else
    let face_counts := frames.map cv.detect_faces
    let face_count_variance :=
      if face_counts.length > 1 then npVar (face_counts.map (Nat.cast ·)) else 0
    let consistency_score := 1 / (1 + face_count_variance)
    [("consistency_score", consistency_score),
     ("face_count_variance", face_count_variance),
     ("total_faces_detected", (face_counts.sum : ℚ))]

/-- `analyze_lighting_consistency` (lines 66-87). -/
def analyze_lighting_consistency (cv : CV) (frames : List Frame) : SignalReport :=
  if frames.length < 2 then
    [("lighting_variance", 0), ("shadow_consistency", 0)]
  else
    let lighting_values := frames.map cv.mean_luminance
    let lighting_variance :=
      if lighting_values.length > 1 then npVar lighting_values else 0
    let shadow_consistency := 1 / (1 + lighting_variance / 100)
    [("lighting_variance", lighting_variance),
     ("shadow_consistency", shadow_consistency),
     ("mean_lighting", npMean lighting_values)]

/-- `analyze_compression_artifacts` (lines 89-109).  There is no `< 2` guard:
on an empty frame list `np.max(artifact_scores)` raises `ValueError`, modelled
by the `Except.error` branch. -/
def analyze_compression_artifacts (cv : CV) (frames : List Frame) :
    Except String SignalReport :=
  let artifact_scores := frames.map cv.artifact_score
  match npMax artifact_scores with
  | none =>
    Except.error "zero-size array to reduction operation maximum which has no identity"
  | some mx =>
    Except.ok
      [("mean_artifact_score", npMean artifact_scores),
       ("artifact_variance",
        if artifact_scores.length > 1 then npVar artifact_scores else 0),
       ("max_artifact_score", mx)]

/-- `analyze_temporal_consistency` (lines 111-133). -/
def analyze_temporal_consistency (cv : CV) (frames : List Frame) : SignalReport :=
  if frames.length < 2 then
    [("motion_consistency", 0), ("temporal_variance", 0)]
  else
    let motion_scores :=
      (frames.zip frames.tail).map fun p => cv.flow_mean_mag p.1 p.2
    let motion_variance :=
      if motion_scores.length > 1 then npVar motion_scores else 0
    let motion_consistency := 1 / (1 + motion_variance / 100)
    [("motion_consistency", motion_consistency),
     ("temporal_variance", motion_variance),
     ("mean_motion", if motion_scores.isEmpty then 0 else npMean motion_scores)]

/-- `detect_audio_manipulation` (lines 135-151).  The `try` body is a constant
dict and cannot raise, so the `except` fallback (all 0.5) is dead code and not
modelled.  The `audio_path` argument is ignored, as in the source. -/
def detect_audio_manipulation (audio_path : String) : SignalReport :=
  [("audio_manipulation_score", 1/10),
   ("voice_consistency", 9/10),
   ("audio_quality", 4/5)]

/-- `calculate_deepfake_score` (lines 153-178). -/
def calculate_deepfake_score (analysis_results : List (String × SignalReport)) : ℚ :=
  let s_face := getD (getReport analysis_results "face_consistency") "consistency_score" (1/2)
  let s_light := getD (getReport analysis_results "lighting_consistency") "shadow_consistency" (1/2)
  let s_comp := 1 - getD (getReport analysis_results "compression_artifacts") "mean_artifact_score" (1/2)
  let s_temp := getD (getReport analysis_results "temporal_consistency") "motion_consistency" (1/2)
  let s_audio := 1 - getD (getReport analysis_results "audio_manipulation") "audio_manipulation_score" (1/2)
  let weighted_score :=
    3/10 * s_face + 1/5 * s_light + 1/4 * s_comp + 3/20 * s_temp + 1/10 * s_audio
  1 - weighted_score

/-- The classification if-chain of `analyze_video` (lines 213-218), factored
out as the score-only function it is. -/
def classifyScore (s : ℚ) : String :=
  if s > 7/10 then "deepfake" else if s < 3/10 then "real" else "uncertain"

/-- `_generate_heatmap_frames` (lines 249-262); the `analysis_results`
argument is unused in the source as well. -/
def generate_heatmap_frames (frames : List Frame)
    (_results : List (String × SignalReport)) : List ℚ :=
  if frames.length = 0 then []
  else
    (List.range (Nat.min 10 frames.length)).filterMap
      fun i => if i % 3 = 0 then some (i : ℚ) else none

/-- The `analysis_results` dict assembled in `analyze_video` (lines 201-207). -/
def mkAnalysisResults (face light comp temporal audio : SignalReport) :
    List (String × SignalReport) :=
  [("face_consistency", face),
   ("lighting_consistency", light),
   ("compression_artifacts", comp),
   ("temporal_consistency", temporal),
   ("audio_manipulation", audio)]

/-- The body of `analyze_video` after frame extraction (lines 187-247).
`audio_path` is `some p` when an audio path was supplied and the file exists
(`audio_path and os.path.exists(audio_path)`); `elapsed` is the wall-clock
processing time measured externally. -/
def analyze_video_frames (cv : CV) (frames : List Frame)
    (audio_path : Option String) (elapsed : ℚ) : PyDict :=
  let face_analysis := analyze_face_consistency cv frames
  let lighting_analysis := analyze_lighting_consistency cv frames
  match analyze_compression_artifacts cv frames with
  | Except.error e =>
    -- the `except` branch, lines 238-247
    [("classification", Value.str "error"),
     ("confidence", Value.num 0),
     ("deepfake_score", Value.num (1/2)),
     ("manipulation_indicators", Value.dict []),
     ("heatmap_frames", Value.list []),
     ("processing_time", Value.num 0),
     ("model_version", Value.str "1.0.0"),
     ("error", Value.str e)]
  | Except.ok compression_analysis =>
    let temporal_analysis := analyze_temporal_consistency cv frames
    let audio_analysis :=
      match audio_path with
      | some p => detect_audio_manipulation p
      | none => []
    let analysis_results :=
      mkAnalysisResults face_analysis lighting_analysis compression_analysis
        temporal_analysis audio_analysis
    let deepfake_score := calculate_deepfake_score analysis_results
    let classification := classifyScore deepfake_score
    let confidence := if classification = "real" then 1 - deepfake_score else deepfake_score
    [("classification", Value.str classification),
     ("confidence", Value.num confidence),
     ("deepfake_score", Value.num deepfake_score),
     ("manipulation_indicators",
      Value.dict (analysis_results.map fun p => (p.1, embedReport p.2))),
     ("heatmap_frames",
      Value.list ((generate_heatmap_frames frames analysis_results).map Value.num)),
     ("processing_time", Value.num elapsed),
     ("model_version", Value.str "1.0.0"),
     ("frames_analyzed", Value.num frames.length)]

/-- `analyze_video` (lines 180-247): extract frames (default `max_frames=100`),
then analyze. -/
def analyze_video (cv : CV) (v : Video) (audio_path : Option String)
    (elapsed : ℚ) : PyDict :=
  analyze_video_frames cv (extract_frames v 100) audio_path elapsed

/-!  ## Geospatial engine (`geospatial_engine.py`)  -/

/-- The `GPSMetadata` dataclass (geospatial_engine.py lines 13-22).
`timestamp` is a rational instant (seconds); Python `datetime` objects are
always truthy, whereas a float `accuracy` of `0.0` and an int `satellites`
of `0` are falsy — see `detect_gps_manipulation`. -/
structure GPSMetadata where
  latitude : ℚ
  longitude : ℚ
  altitude : Option ℚ := none
  timestamp : Option ℚ := none
  accuracy : Option ℚ := none
  satellites : Option Int := none
  device_info : Option String := none

/-- The hard-coded simulated GPS data of `extract_gps_metadata`
(lines 55-63), with `timestamp = datetime.now()`. -/
def stubGps (now : ℚ) : GPSMetadata :=
  { latitude := 377749/10000       -- 37.7749
    longitude := -(1224194/10000)  -- -122.4194
    altitude := some 10
    timestamp := some now
    accuracy := some 5
    satellites := some 8
    device_info := some "iPhone 12" }

/-- `extract_gps_metadata` (lines 37-69).  The `try` body only reads fps and
frame count from the capture (which cannot raise, even for a missing file) and
then returns the hard-coded `stubGps`; the video content never influences the
result.  The `except`/`None` branch is therefore dead code in the reference
behaviour. -/
def extract_gps_metadata (now : ℚ) (_v : Video) : Option GPSMetadata :=
  some (stubGps now)

/-- The dict returned by `detect_gps_manipulation` (lines 142-146). -/
structure ManipReport where
  manipulation_scores : List (String × ℚ)
  overall_manipulation_probability : ℚ
  suspicious_patterns : List String

/-- `detect_gps_manipulation` (lines 98-146).  Each Python guard is a
truthiness test (`if gps_data.timestamp:` etc.): a missing value goes to the
0.5 branch, and so do a `0.0` accuracy and a `0` satellite count, since zero
numbers are falsy; `datetime` timestamps are always truthy. -/
def detect_gps_manipulation (now : ℚ) (gps_data : GPSMetadata) : ManipReport :=
  let gps_jump : ℚ := 1/10
  let timestamp_mismatch : ℚ :=
    match gps_data.timestamp with
    | some ts => if |now - ts| > 86400 then 8/10 else 1/10
    | none => 1/2
  let accuracy_anomaly : ℚ :=
    match gps_data.accuracy with
    | some a =>
      if a = 0 then 1/2   -- falsy float: `if gps_data.accuracy:` fails
      else if a < 1 then 7/10
      else if a > 50 then 3/5
      else 1/10
    | none => 1/2
  let satellite_anomaly : ℚ :=
    match gps_data.satellites with
    | some n =>
      if n = 0 then 1/2   -- falsy int
      else if n < 4 then 4/5
      else if n > 12 then 3/5
      else 1/10
    | none => 1/2
  let manipulation_scores : List (String × ℚ) :=
    [("gps_jump", gps_jump),
     ("timestamp_mismatch", timestamp_mismatch),
     ("accuracy_anomaly", accuracy_anomaly),
     ("satellite_anomaly", satellite_anomaly)]
  let total_score := (manipulation_scores.map Prod.snd).sum
  { manipulation_scores := manipulation_scores
    overall_manipulation_probability := total_score / manipulation_scores.length
    suspicious_patterns :=
      (manipulation_scores.filter fun p => p.2 > 1/2).map Prod.fst }

/-- The placeholder indicator scores `_analyze_location_indicators` returns
for any non-empty frame sequence (lines 244-250). -/
def stubIndicators : SignalReport :=
  [("indicators_found", 3/5),
   ("consistency", 4/5),
   ("landmark_detection", 7/10),
   ("text_recognition", 1/2),
   ("weather_consistency", 9/10)]

/-- `_analyze_location_indicators` (lines 232-250): placeholder scores, fixed
except for the empty-frames degenerate report. -/
def analyze_location_indicators (frames : List Frame) : SignalReport :=
  if frames.isEmpty then
    [("indicators_found", 0), ("consistency", 0)]
  else
    stubIndicators

/-- `_calculate_location_consistency` (lines 252-273): weighted average over
the weighted keys present in the indicator dict. -/
def calculate_location_consistency (indicators : SignalReport) : ℚ :=
  if indicators.isEmpty then 0
  else
    let weights : List (String × ℚ) :=
      [("indicators_found", 3/10),
       ("consistency", 2/5),
       ("landmark_detection", 1/5),
       ("text_recognition", 1/10)]
    let acc := weights.foldl
      (fun (a : ℚ × ℚ) kw =>
        match lookupMetric indicators kw.1 with
        | some v => (a.1 + v * kw.2, a.2 + kw.2)
        | none => a)
      (0, 0)
    if acc.2 > 0 then acc.1 / acc.2 else 0

/-- The dict returned by `verify_location_consistency` (lines 83-87, success
path; the `except` fallback is unreachable for the embedded, total body). -/
structure LocationConsistency where
  consistency_score : ℚ
  location_indicators : SignalReport
  verification_method : String

/-- The body of `verify_location_consistency` (lines 71-96) after its internal
`_extract_sample_frames` call; the frame sampling itself is
`extract_frames · 20` (the `_extract_sample_frames` loop is line-for-line the
loop of `extract_frames`). -/
def verify_location_consistency_frames (frames : List Frame) : LocationConsistency :=
  let location_indicators := analyze_location_indicators frames
  { consistency_score := calculate_location_consistency location_indicators
    location_indicators := location_indicators
    verification_method := "visual_analysis" }

/-- The status if-chain of `verify_geospatial_authenticity` (lines 175-180),
factored out as the confidence-only function it is. -/
def geoStatus (c : ℚ) : String :=
  if c > 7/10 then "verified" else if c < 3/10 then "suspicious" else "uncertain"

/-- The verification-confidence formula of `verify_geospatial_authenticity`
(line 172). -/
def verification_confidence_of (consistency_score manipulation_probability : ℚ) : ℚ :=
  (consistency_score + (1 - manipulation_probability)) / 2

/-- The record built by the `except` branch of `verify_geospatial_authenticity`
(lines 204-209); unreachable for the embedded, total body, but its shape is
part of the entry point's contract. -/
def geoErrorRecord (e : String) : PyDict :=
  [("verification_status", Value.str "error"),
   ("verification_confidence", Value.num 0),
   ("error", Value.str e),
   ("processing_time", Value.num 0)]

/-- The body of `verify_geospatial_authenticity` (lines 148-200) given the
extraction result, the frames sampled for location consistency, the
`datetime.now()` instant seen by `detect_gps_manipulation`, and the externally
measured elapsed time. -/
def verify_geo_core (gps? : Option GPSMetadata) (frames : List Frame)
    (now : ℚ) (elapsed : ℚ) : PyDict :=
  match gps? with
  | none =>
    -- lines 156-161: `if not gps_data:` — dataclasses are truthy, so this
    -- fires exactly when extraction returned `None`
    [("verification_status", Value.str "failed"),
     ("error", Value.str "No GPS metadata found"),
     ("processing_time", Value.num 0)]
  | some gps_data =>
    let location_consistency := verify_location_consistency_frames frames
    let gps_manipulation := detect_gps_manipulation now gps_data
    let consistency_score := location_consistency.consistency_score
    let manipulation_probability := gps_manipulation.overall_manipulation_probability
    let verification_confidence :=
      verification_confidence_of consistency_score manipulation_probability
    let verification_status := geoStatus verification_confidence
    [("verification_status", Value.str verification_status),
     ("verification_confidence", Value.num verification_confidence),
     ("gps_metadata", Value.dict
       [("latitude", Value.num gps_data.latitude),
        ("longitude", Value.num gps_data.longitude),
        ("altitude", match gps_data.altitude with
          | some a => Value.num a | none => Value.null),
        -- `timestamp.isoformat()`: the external rendering of the instant,
        -- modelled by the instant itself
        ("timestamp", match gps_data.timestamp with
          | some t => Value.num t | none => Value.null),
        ("accuracy", match gps_data.accuracy with
          | some a => Value.num a | none => Value.null),
        ("satellites", match gps_data.satellites with
          | some n => Value.num (n : ℚ) | none => Value.null),
        ("device_info", match gps_data.device_info with
          | some s => Value.str s | none => Value.null)]),
     ("location_consistency", Value.dict
       [("consistency_score", Value.num consistency_score),
        ("location_indicators", embedReport location_consistency.location_indicators),
        ("verification_method", Value.str location_consistency.verification_method)]),
     ("gps_manipulation", Value.dict
       [("manipulation_scores", embedReport gps_manipulation.manipulation_scores),
        ("overall_manipulation_probability",
         Value.num gps_manipulation.overall_manipulation_probability),
        ("suspicious_patterns",
         Value.list (gps_manipulation.suspicious_patterns.map Value.str))]),
     ("processing_time", Value.num elapsed),
     ("verification_methods",
      Value.list [Value.str "gps_analysis", Value.str "visual_analysis"])]

/-- `verify_geospatial_authenticity` (lines 148-209): extract the (simulated)
GPS metadata at instant `t_extract`, sample up to 20 frames, and fuse;
`t_detect` is the `datetime.now()` instant seen inside
`detect_gps_manipulation`. -/
def verify_geospatial_authenticity (v : Video) (t_extract t_detect elapsed : ℚ) :
    PyDict :=
  verify_geo_core (extract_gps_metadata t_extract v) (extract_frames v 20)
    t_detect elapsed

/-!  ## Auxiliary constructions used only in theorem statements  -/

/-- An analysis-results mapping in which each of the five signals is present
exactly when its metric is `some`; used to quantify over “any subset of the
five signals present”. -/
def mkResultsOpt (fc lc ma tc am : Option ℚ) : List (String × SignalReport) :=
  (match fc with
   | some v => [("face_consistency", [("consistency_score", v)])]
   | none => []) ++
  (match lc with
   | some v => [("lighting_consistency", [("shadow_consistency", v)])]
   | none => []) ++
  (match ma with
   | some v => [("compression_artifacts", [("mean_artifact_score", v)])]
   | none => []) ++
  (match tc with
   | some v => [("temporal_consistency", [("motion_consistency", v)])]
   | none => []) ++
  (match am with
   | some v => [("audio_manipulation", [("audio_manipulation_score", v)])]
   | none => [])

/-- A concrete trivial cv2 environment used for closed evaluations. -/
def cv0 : CV :=
  { detect_faces := fun _ => 0
    mean_luminance := fun _ => 0
    artifact_score := fun _ => 0
    flow_mean_mag := fun _ _ => 0 }

/-!  ## Helper lemmas  -/

/-- The classification if-chain, characterised by the score thresholds. -/
theorem classifyScore_spec (s : ℚ) :
    (classifyScore s = "deepfake" ↔ s > 7/10) ∧
    (classifyScore s = "real" ↔ s < 3/10) ∧
    (classifyScore s = "uncertain" ↔ 3/10 ≤ s ∧ s ≤ 7/10) := by
  unfold classifyScore
  by_cases h1 : s > 7/10
  · simp only [if_pos h1]
    exact ⟨by simp [h1], by simp; linarith, by simp; intro h; linarith⟩
  · by_cases h2 : s < 3/10
    · simp only [if_neg h1, if_pos h2]
      push_neg at h1
      exact ⟨by simp; linarith, by simp [h2], by simp; intro h; linarith⟩
    · simp only [if_neg h1, if_neg h2]
      push_neg at h1 h2
      exact ⟨by simp; linarith, by simp; linarith, by simp; constructor <;> linarith⟩

/-- The geospatial status if-chain, characterised by the thresholds. -/
theorem geoStatus_spec (c : ℚ) :
    (geoStatus c = "verified" ↔ c > 7/10) ∧
    (geoStatus c = "suspicious" ↔ c < 3/10) ∧
    (geoStatus c = "uncertain" ↔ 3/10 ≤ c ∧ c ≤ 7/10) := by
  unfold geoStatus
  by_cases h1 : c > 7/10
  · simp only [if_pos h1]
    exact ⟨by simp [h1], by simp; linarith, by simp; intro h; linarith⟩
  · by_cases h2 : c < 3/10
    · simp only [if_neg h1, if_pos h2]
      push_neg at h1
      exact ⟨by simp; linarith, by simp [h2], by simp; intro h; linarith⟩
    · simp only [if_neg h1, if_neg h2]
      push_neg at h1 h2
      exact ⟨by simp; linarith, by simp; linarith, by simp; constructor <;> linarith⟩

/-!  ## Claims  -/

/-- C2: for any subset of the five signals present, `calculate_deepfake_score`
returns exactly `1 − (0.30·fc + 0.20·lc + 0.25·(1 − ma) + 0.15·tc +
0.10·(1 − am))`, where each metric missing from the mapping is replaced by 0.5
before weighting. -/
theorem deepfake_score_formula (fc lc ma tc am : Option ℚ) :
    calculate_deepfake_score (mkResultsOpt fc lc ma tc am) =
      1 - (30/100 * fc.getD (1/2) + 20/100 * lc.getD (1/2)
           + 25/100 * (1 - ma.getD (1/2)) + 15/100 * tc.getD (1/2)
           + 10/100 * (1 - am.getD (1/2))) := by
  rcases fc with _ | fc <;> rcases lc with _ | lc <;> rcases ma with _ | ma <;>
    rcases tc with _ | tc <;> rcases am with _ | am <;>
    simp [calculate_deepfake_score, mkResultsOpt, getReport, getD] <;> ring

/-- The deepfake score the success path of `analyze_video_frames` computes
(spelled from the embedded pipeline; `.toOption.getD []` extracts the
compression report, which exists whenever the path is reached). -/
def success_score (cv : CV) (frames : List Frame) (audio_path : Option String) : ℚ :=
  calculate_deepfake_score (mkAnalysisResults
    (analyze_face_consistency cv frames)
    (analyze_lighting_consistency cv frames)
    ((analyze_compression_artifacts cv frames).toOption.getD [])
    (analyze_temporal_consistency cv frames)
    (match audio_path with | some p => detect_audio_manipulation p | none => []))

/-- C1: on every non-raising run of `analyze_video` (in the embedding: every
run on at least one extracted frame), the returned classification is the fixed
threshold function of the returned `deepfake_score` alone — `"deepfake"` iff
score > 0.7, `"real"` iff score < 0.3, `"uncertain"` otherwise (so 0.7 and 0.3
give `"uncertain"`, 0.71 gives `"deepfake"`, 0.29 gives `"real"`) — and the
returned confidence is `1 − score` when the score classifies as real and
`score` otherwise. -/
theorem classification_policy (cv : CV) (f : Frame) (fs : List Frame)
    (audio_path : Option String) (elapsed : ℚ) :
    let r := analyze_video_frames cv (f :: fs) audio_path elapsed
    let s := success_score cv (f :: fs) audio_path
    asNum (getF r "deepfake_score") = some s ∧
    (asStr (getF r "classification") = some "deepfake" ↔ s > 7/10) ∧
    (asStr (getF r "classification") = some "real" ↔ s < 3/10) ∧
    (asStr (getF r "classification") = some "uncertain" ↔ 3/10 ≤ s ∧ s ≤ 7/10) ∧
    asNum (getF r "confidence") = some (if s < 3/10 then 1 - s else s) ∧
    classifyScore (7/10) = "uncertain" ∧ classifyScore (3/10) = "uncertain" ∧
    classifyScore (71/100) = "deepfake" ∧ classifyScore (29/100) = "real" := by
  intro r s
  have hds : asNum (getF r "deepfake_score") = some s := rfl
  have hcl : asStr (getF r "classification") = some (classifyScore s) := rfl
  have hconf : asNum (getF r "confidence")
      = some (if classifyScore s = "real" then 1 - s else s) := rfl
  obtain ⟨h1, h2, h3⟩ := classifyScore_spec s
  refine ⟨hds, ?_, ?_, ?_, ?_, by norm_num [classifyScore], by norm_num [classifyScore],
    by norm_num [classifyScore], by norm_num [classifyScore]⟩
  · rw [hcl, Option.some_inj]; exact h1
  · rw [hcl, Option.some_inj]; exact h2
  · rw [hcl, Option.some_inj]; exact h3
  · rw [hconf]
    by_cases h : s < 3/10
    · rw [if_pos (h2.mpr h), if_pos h]
    · rw [if_neg fun hr => h (h2.mp hr), if_neg h]

/-- C7: with every per-signal sub-score in [0,1], the fused deepfake score is
in [0,1] (the weights form a convex combination), and with consistency score
and manipulation probability in [0,1] the geospatial verification confidence
is in [0,1]. -/
theorem fused_scores_in_unit_interval (fc lc ma tc am cs mp : ℚ)
    (hfc : 0 ≤ fc ∧ fc ≤ 1) (hlc : 0 ≤ lc ∧ lc ≤ 1) (hma : 0 ≤ ma ∧ ma ≤ 1)
    (htc : 0 ≤ tc ∧ tc ≤ 1) (ham : 0 ≤ am ∧ am ≤ 1)
    (hcs : 0 ≤ cs ∧ cs ≤ 1) (hmp : 0 ≤ mp ∧ mp ≤ 1) :
    (0 ≤ calculate_deepfake_score
        (mkResultsOpt (some fc) (some lc) (some ma) (some tc) (some am)) ∧
      calculate_deepfake_score
        (mkResultsOpt (some fc) (some lc) (some ma) (some tc) (some am)) ≤ 1) ∧
    (0 ≤ verification_confidence_of cs mp ∧ verification_confidence_of cs mp ≤ 1) := by
  obtain ⟨hfc0, hfc1⟩ := hfc
  obtain ⟨hlc0, hlc1⟩ := hlc
  obtain ⟨hma0, hma1⟩ := hma
  obtain ⟨htc0, htc1⟩ := htc
  obtain ⟨ham0, ham1⟩ := ham
  obtain ⟨hcs0, hcs1⟩ := hcs
  obtain ⟨hmp0, hmp1⟩ := hmp
  unfold verification_confidence_of
  simp [calculate_deepfake_score, mkResultsOpt, getReport, getD]
  refine ⟨⟨?_, ?_⟩, ?_, ?_⟩ <;> linarith

/-- Witness for C7 at concrete sub-scores (all 1/2). -/
theorem fused_scores_in_unit_interval_witness :
    ((0 ≤ (1/2 : ℚ) ∧ (1/2 : ℚ) ≤ 1) ∧ (0 ≤ (1/2 : ℚ) ∧ (1/2 : ℚ) ≤ 1) ∧
     (0 ≤ (1/2 : ℚ) ∧ (1/2 : ℚ) ≤ 1) ∧ (0 ≤ (1/2 : ℚ) ∧ (1/2 : ℚ) ≤ 1) ∧
     (0 ≤ (1/2 : ℚ) ∧ (1/2 : ℚ) ≤ 1) ∧ (0 ≤ (1/2 : ℚ) ∧ (1/2 : ℚ) ≤ 1) ∧
     (0 ≤ (1/2 : ℚ) ∧ (1/2 : ℚ) ≤ 1)) ∧
    ((0 ≤ calculate_deepfake_score
        (mkResultsOpt (some (1/2)) (some (1/2)) (some (1/2)) (some (1/2)) (some (1/2))) ∧
      calculate_deepfake_score
        (mkResultsOpt (some (1/2)) (some (1/2)) (some (1/2)) (some (1/2)) (some (1/2))) ≤ 1) ∧
     (0 ≤ verification_confidence_of (1/2) (1/2) ∧
      verification_confidence_of (1/2) (1/2) ≤ 1)) :=
  ⟨⟨⟨by norm_num, by norm_num⟩, ⟨by norm_num, by norm_num⟩, ⟨by norm_num, by norm_num⟩,
    ⟨by norm_num, by norm_num⟩, ⟨by norm_num, by norm_num⟩, ⟨by norm_num, by norm_num⟩,
    ⟨by norm_num, by norm_num⟩⟩,
   fused_scores_in_unit_interval (1/2) (1/2) (1/2) (1/2) (1/2) (1/2) (1/2)
     ⟨by norm_num, by norm_num⟩ ⟨by norm_num, by norm_num⟩ ⟨by norm_num, by norm_num⟩
     ⟨by norm_num, by norm_num⟩ ⟨by norm_num, by norm_num⟩ ⟨by norm_num, by norm_num⟩
     ⟨by norm_num, by norm_num⟩⟩

/-- C10: `detect_audio_manipulation` returns the identical fixed report
`{audio_manipulation_score: 0.1, voice_consistency: 0.9, audio_quality: 0.8}`
for every audio path, so an existing audio file always contributes the fixed
term `0.10 · (1 − 0.1)` to the weighted score, lowering the deepfake score by
exactly 0.04 relative to the absent-audio default of 0.5 (whatever the other
four reports are). -/
theorem audio_stub_constant_and_effect :
    (∀ p q : String, detect_audio_manipulation p = detect_audio_manipulation q) ∧
    (∀ p : String,
      lookupMetric (detect_audio_manipulation p) "audio_manipulation_score" = some (1/10) ∧
      lookupMetric (detect_audio_manipulation p) "voice_consistency" = some (9/10) ∧
      lookupMetric (detect_audio_manipulation p) "audio_quality" = some (4/5)) ∧
    (∀ (face light comp temporal : SignalReport) (p : String),
      calculate_deepfake_score
          (mkAnalysisResults face light comp temporal (detect_audio_manipulation p)) =
        calculate_deepfake_score (mkAnalysisResults face light comp temporal []) - 4/100) := by
  refine ⟨fun p q => rfl, fun p => ⟨rfl, rfl, rfl⟩,
    fun face light comp temporal p => ?_⟩
  simp [calculate_deepfake_score, mkAnalysisResults, getReport, getD, detect_audio_manipulation]
  ring

/-- The frames the loop keeps, written the way the spec describes them: among
positions `0..fuel-1` past `count`, those that are multiples of the stride and
were decoded, truncated to the remaining capacity. -/
theorem extractLoop_eq (reads : Nat → Option Frame) (interval maxf : Nat) :
    ∀ (fuel count : Nat) (frames : List Frame), frames.length ≤ maxf →
    extractLoop reads interval maxf fuel count frames =
      frames ++ (((List.range' count fuel).filterMap
        fun i => if i % interval = 0 then reads i else none).take (maxf - frames.length)) := by
  intro fuel
  induction fuel with
  | zero =>
    intro count frames _
    simp [extractLoop]
  | succ fuel ih =>
    intro count frames h
    rw [List.range'_succ]
    by_cases hlen : frames.length < maxf
    · rw [extractLoop, if_pos hlen]
      cases hr : reads count with
      | some f =>
        dsimp only
        by_cases hmod : count % interval = 0
        · rw [if_pos hmod, ih (count + 1) (frames ++ [f]) (by simpa using hlen)]
          have h2 : maxf - frames.length = (maxf - (frames ++ [f]).length) + 1 := by
            simp; omega
          rw [h2]
          simp [List.filterMap_cons, hmod, hr]
        · rw [if_neg hmod, ih (count + 1) frames h]
          simp [List.filterMap_cons, hmod]
      | none =>
        dsimp only
        rw [ih (count + 1) frames h]
        simp [List.filterMap_cons, hr]
    · rw [extractLoop, if_neg hlen]
      have h2 : maxf - frames.length = 0 := by omega
      rw [h2, List.take_zero, List.append_nil]

/-- C8: for every source with `T` total frames and every `max_frames ≥ 1`,
`extract_frames` keeps exactly the decoded frames whose ordinal position is a
multiple of `stride = max(1, ⌊T / max_frames⌋)`, stopping once `max_frames`
frames are kept or the stream is exhausted; hence the result has length
≤ `max_frames` and ≤ `T`, and an unopenable (`T = 0`) or undecodable (every
read fails) file yields the empty sequence. -/
theorem extract_frames_stride_spec (T : Nat) (reads : Nat → Option Frame)
    (max_frames : Nat) (h : 1 ≤ max_frames) :
    extract_frames ⟨T, reads⟩ max_frames =
      ((List.range T).filterMap
        fun i => if i % (Nat.max 1 (T / max_frames)) = 0 then reads i else none).take max_frames ∧
    (extract_frames ⟨T, reads⟩ max_frames).length ≤ max_frames ∧
    (extract_frames ⟨T, reads⟩ max_frames).length ≤ T ∧
    (T = 0 → extract_frames ⟨T, reads⟩ max_frames = []) ∧
    ((∀ i, reads i = none) → extract_frames ⟨T, reads⟩ max_frames = []) := by
  have heq : extract_frames ⟨T, reads⟩ max_frames =
      ((List.range T).filterMap
        fun i => if i % (Nat.max 1 (T / max_frames)) = 0 then reads i else none).take max_frames := by
    unfold extract_frames
    rw [extractLoop_eq reads _ max_frames T 0 [] (by simp)]
    simp [List.range_eq_range']
  refine ⟨heq, ?_, ?_, ?_, ?_⟩
  · rw [heq, List.length_take]
    exact Nat.min_le_left _ _
  · rw [heq, List.length_take]
    exact le_trans (Nat.min_le_right _ _)
      (le_trans (List.length_filterMap_le _ _) (by simp))
  · intro hT
    rw [heq, hT]
    simp
  · intro hnone
    rw [heq]
    have : ((List.range T).filterMap
        fun i => if i % (Nat.max 1 (T / max_frames)) = 0 then reads i else none) = [] := by
      rw [List.filterMap_eq_nil_iff]
      intro a _
      simp [hnone a]
    rw [this, List.take_nil]

/-- C3 (code bug): on a 0- or 1-frame input the face, lighting and temporal
analyzers return their documented degenerate reports, but on the empty frame
sequence `analyze_compression_artifacts` does NOT return a report: it reaches
`np.max` on an empty array, which raises `ValueError` — contradicting the
spec's requirement that signal analyzers never raise on zero/one-frame input
(§7, §4.2). -/
theorem compression_empty_frames_raises :
    analyze_compression_artifacts cv0 ([] : List Frame) =
      Except.error "zero-size array to reduction operation maximum which has no identity" ∧
    analyze_face_consistency cv0 [] =
      [("consistency_score", 0), ("face_count_variance", 0)] ∧
    analyze_face_consistency cv0 [0] =
      [("consistency_score", 0), ("face_count_variance", 0)] ∧
    analyze_lighting_consistency cv0 [] =
      [("lighting_variance", 0), ("shadow_consistency", 0)] ∧
    analyze_lighting_consistency cv0 [0] =
      [("lighting_variance", 0), ("shadow_consistency", 0)] ∧
    analyze_temporal_consistency cv0 [] =
      [("motion_consistency", 0), ("temporal_variance", 0)] ∧
    analyze_temporal_consistency cv0 [0] =
      [("motion_consistency", 0), ("temporal_variance", 0)] ∧
    analyze_compression_artifacts cv0 [0] =
      Except.ok [("mean_artifact_score", 0), ("artifact_variance", 0),
                 ("max_artifact_score", 0)] := by
  refine ⟨rfl, rfl, rfl, rfl, rfl, rfl, rfl, ?_⟩
  norm_num [analyze_compression_artifacts, cv0, npMean, npMax]

/-- C4 counterexample: at the concrete unreadable video (zero decodable
frames) `analyze_video` takes the error path, and the returned record does
not contain the `frames_analyzed` field — so not every returned record is
fully populated with all `DeepfakeResult` fields. -/
theorem error_record_omits_frames_analyzed :
    (getF (analyze_video cv0 ⟨0, fun _ => none⟩ none 0) "frames_analyzed").isNone = true ∧
    asStr (getF (analyze_video cv0 ⟨0, fun _ => none⟩ none 0) "classification")
      = some "error" :=
  ⟨rfl, rfl⟩

/-- C4 (amended): both entry points always return a record (the embedding is
total) and the failure records carry the documented sentinel values — the
`analyze_video` error record has classification `"error"`, confidence 0,
deepfake_score 0.5, empty indicators and empty heatmap, the geospatial
no-metadata record has status `"failed"`, and the geospatial `except` record
has status `"error"` with confidence 0 — but only the success records are
fully populated: the `analyze_video` error record omits `frames_analyzed`
(carrying `error` instead), and the geospatial `"failed"` record omits
`verification_confidence` and `gps_metadata` (the `"error"` record omits
`gps_metadata`). -/
theorem entry_point_failure_records :
    (∀ (cv : CV) (reads : Nat → Option Frame) (audio_path : Option String) (elapsed : ℚ),
      asStr (getF (analyze_video cv ⟨0, reads⟩ audio_path elapsed) "classification")
        = some "error" ∧
      asNum (getF (analyze_video cv ⟨0, reads⟩ audio_path elapsed) "confidence") = some 0 ∧
      asNum (getF (analyze_video cv ⟨0, reads⟩ audio_path elapsed) "deepfake_score")
        = some (1/2) ∧
      getF (analyze_video cv ⟨0, reads⟩ audio_path elapsed) "manipulation_indicators"
        = some (Value.dict []) ∧
      getF (analyze_video cv ⟨0, reads⟩ audio_path elapsed) "heatmap_frames"
        = some (Value.list []) ∧
      (getF (analyze_video cv ⟨0, reads⟩ audio_path elapsed) "frames_analyzed").isNone = true ∧
      (getF (analyze_video cv ⟨0, reads⟩ audio_path elapsed) "error").isSome = true) ∧
    (∀ (cv : CV) (f : Frame) (fs : List Frame) (audio_path : Option String) (elapsed : ℚ),
      (getF (analyze_video_frames cv (f :: fs) audio_path elapsed) "frames_analyzed").isSome
        = true) ∧
    (∀ (frames : List Frame) (now elapsed : ℚ),
      asStr (getF (verify_geo_core none frames now elapsed) "verification_status")
        = some "failed" ∧
      (getF (verify_geo_core none frames now elapsed) "verification_confidence").isNone = true ∧
      (getF (verify_geo_core none frames now elapsed) "gps_metadata").isNone = true ∧
      (getF (verify_geo_core none frames now elapsed) "error").isSome = true) ∧
    (∀ e : String,
      asStr (getF (geoErrorRecord e) "verification_status") = some "error" ∧
      asNum (getF (geoErrorRecord e) "verification_confidence") = some 0 ∧
      (getF (geoErrorRecord e) "gps_metadata").isNone = true) :=
  ⟨fun _ _ _ _ => ⟨rfl, rfl, rfl, rfl, rfl, rfl, rfl⟩,
   fun _ _ _ _ _ => rfl,
   fun _ _ _ => ⟨rfl, rfl, rfl, rfl⟩,
   fun _ => ⟨rfl, rfl, rfl⟩⟩

/-- C5: with no GPS metadata the result is the fixed `"failed"` record,
independent of the frames, the clock and the sub-analyzers' inputs (they are
never consulted); otherwise the returned confidence is
`(consistency + (1 − manipulation)) / 2` of the two sub-analyzer outputs and
the status is `"verified"` iff confidence > 0.7, `"suspicious"` iff < 0.3 and
`"uncertain"` otherwise — in particular confidence 0.7 and 0.3 both map to
`"uncertain"` and 0.29 maps to `"suspicious"`. -/
theorem geospatial_status_policy :
    (∀ (frames : List Frame) (now elapsed : ℚ),
      verify_geo_core none frames now elapsed =
        [("verification_status", Value.str "failed"),
         ("error", Value.str "No GPS metadata found"),
         ("processing_time", Value.num 0)]) ∧
    (∀ (g : GPSMetadata) (frames : List Frame) (now elapsed : ℚ),
      let c := verification_confidence_of
        (verify_location_consistency_frames frames).consistency_score
        (detect_gps_manipulation now g).overall_manipulation_probability
      asNum (getF (verify_geo_core (some g) frames now elapsed) "verification_confidence")
        = some c ∧
      (asStr (getF (verify_geo_core (some g) frames now elapsed) "verification_status")
        = some "verified" ↔ c > 7/10) ∧
      (asStr (getF (verify_geo_core (some g) frames now elapsed) "verification_status")
        = some "suspicious" ↔ c < 3/10) ∧
      (asStr (getF (verify_geo_core (some g) frames now elapsed) "verification_status")
        = some "uncertain" ↔ 3/10 ≤ c ∧ c ≤ 7/10)) ∧
    geoStatus (7/10) = "uncertain" ∧ geoStatus (3/10) = "uncertain" ∧
    geoStatus (29/100) = "suspicious" := by
  refine ⟨fun _ _ _ => rfl, ?_, by norm_num [geoStatus], by norm_num [geoStatus],
    by norm_num [geoStatus]⟩
  intro g frames now elapsed c
  have hcf : asNum (getF (verify_geo_core (some g) frames now elapsed)
      "verification_confidence") = some c := rfl
  have hst : asStr (getF (verify_geo_core (some g) frames now elapsed)
      "verification_status") = some (geoStatus c) := rfl
  obtain ⟨h1, h2, h3⟩ := geoStatus_spec c
  refine ⟨hcf, ?_, ?_, ?_⟩
  · rw [hst, Option.some_inj]; exact h1
  · rw [hst, Option.some_inj]; exact h2
  · rw [hst, Option.some_inj]; exact h3

/-- The GPSMetadata of C6's counterexample: a maximally precise fix,
`accuracy = 0.0` (with unremarkable other fields). -/
def gAccZero : GPSMetadata :=
  { latitude := 0, longitude := 0, timestamp := some 0,
    accuracy := some 0, satellites := some 8 }

/-- C6 counterexample: for `accuracy = 0.0` — which is `< 1m`, so the claim
assigns `accuracy_anomaly = 0.7` — the code scores `accuracy_anomaly = 0.5`
(the absent-value branch, strictly below 0.7), because `if gps_data.accuracy:`
is false for the falsy float `0.0`. -/
theorem zero_accuracy_scored_absent :
    lookupMetric (detect_gps_manipulation 0 gAccZero).manipulation_scores "accuracy_anomaly"
      = some (1/2) ∧
    (1/2 : ℚ) < 7/10 := by
  have hscores : (detect_gps_manipulation 0 gAccZero).manipulation_scores =
      [("gps_jump", 1/10), ("timestamp_mismatch", 1/10),
       ("accuracy_anomaly", 1/2), ("satellite_anomaly", 1/10)] := by
    norm_num [detect_gps_manipulation, gAccZero]
  rw [hscores]
  exact ⟨rfl, by norm_num⟩

/-- The per-pattern scoring rules of the amended C6, written from the amended
claim's words: as in the original claim, except that an `accuracy` of exactly
`0.0` and a `satellites` count of exactly `0` are treated like absent values
(score 0.5), mirroring Python falsiness. -/
def spec_manipulation_scores (now : ℚ) (g : GPSMetadata) : List (String × ℚ) :=
  [("gps_jump", 1/10),
   ("timestamp_mismatch",
    match g.timestamp with
    | none => 1/2
    | some ts => if |now - ts| > 86400 then 8/10 else 1/10),
   ("accuracy_anomaly",
    match g.accuracy with
    | none => 1/2
    | some a => if a = 0 then 1/2 else if a < 1 then 7/10 else if a > 50 then 3/5 else 1/10),
   ("satellite_anomaly",
    match g.satellites with
    | none => 1/2
    | some n => if n = 0 then 1/2 else if n < 4 then 4/5 else if n > 12 then 3/5 else 1/10)]

/-- The GPSMetadata of the claim's end-to-end scenario:
`accuracy = 0.5`, `satellites = 3`, `timestamp = now`. -/
def gScenario : GPSMetadata :=
  { latitude := 0, longitude := 0, timestamp := some 0,
    accuracy := some (1/2), satellites := some 3 }

/-- C6 (amended): `detect_gps_manipulation` scores the four patterns by the
amended rules (original thresholds, with zero accuracy/satellites treated as
absent), the overall probability is the arithmetic mean of the four scores,
and the triggered-pattern list is exactly the names scoring above 0.5; the
scenario `{accuracy=0.5, satellites=3, timestamp=now}` yields 0.7, 0.8, 0.1,
overall 0.425, triggered `[accuracy_anomaly, satellite_anomaly]`. -/
theorem gps_manipulation_scoring :
    (∀ (now : ℚ) (g : GPSMetadata),
      (detect_gps_manipulation now g).manipulation_scores = spec_manipulation_scores now g ∧
      (detect_gps_manipulation now g).overall_manipulation_probability =
        ((spec_manipulation_scores now g).map Prod.snd).sum / 4 ∧
      (detect_gps_manipulation now g).suspicious_patterns =
        ((spec_manipulation_scores now g).filter fun p => p.2 > 1/2).map Prod.fst) ∧
    (detect_gps_manipulation 0 gScenario).manipulation_scores =
      [("gps_jump", 1/10), ("timestamp_mismatch", 1/10),
       ("accuracy_anomaly", 7/10), ("satellite_anomaly", 4/5)] ∧
    (detect_gps_manipulation 0 gScenario).overall_manipulation_probability = 17/40 ∧
    (detect_gps_manipulation 0 gScenario).suspicious_patterns =
      ["accuracy_anomaly", "satellite_anomaly"] := by
  refine ⟨fun now g => ?_, ?_, ?_, ?_⟩
  · obtain ⟨lat, lon, alt, ts, acc, sat, dev⟩ := g
    cases ts <;> cases acc <;> cases sat <;>
      exact ⟨rfl, by norm_num [detect_gps_manipulation, spec_manipulation_scores], rfl⟩
  · norm_num [detect_gps_manipulation, gScenario]
  · norm_num [detect_gps_manipulation, gScenario]
  · norm_num [detect_gps_manipulation, gScenario]

/-- C9: the GPS extractor returns the same fixed metadata (37.7749, −122.4194,
altitude 10, accuracy 5, satellites 8, timestamp = now, device "iPhone 12")
for every video; consequently whenever at least one frame is sampled the
geospatial verdict is `"verified"` with confidence 0.795 (location consistency
0.69, overall manipulation probability 0.1, no triggered patterns), and with
zero sampled frames it is `"uncertain"` with confidence 0.45.  The single
instant `t` plays the role of `datetime.now()` for both the extractor and the
manipulation detector. -/
theorem fixed_gps_stub_verification :
    (∀ (t : ℚ) (v v' : Video),
      extract_gps_metadata t v = extract_gps_metadata t v' ∧
      extract_gps_metadata t v = some (stubGps t) ∧
      (stubGps t).latitude = 377749/10000 ∧
      (stubGps t).longitude = -(1224194/10000) ∧
      (stubGps t).altitude = some 10 ∧
      (stubGps t).accuracy = some 5 ∧
      (stubGps t).satellites = some 8 ∧
      (stubGps t).timestamp = some t ∧
      (stubGps t).device_info = some "iPhone 12") ∧
    (∀ (t elapsed : ℚ) (f : Frame) (fs : List Frame),
      asStr (getF (verify_geo_core (some (stubGps t)) (f :: fs) t elapsed)
        "verification_status") = some "verified" ∧
      asNum (getF (verify_geo_core (some (stubGps t)) (f :: fs) t elapsed)
        "verification_confidence") = some (159/200) ∧
      (verify_location_consistency_frames (f :: fs)).consistency_score = 69/100 ∧
      (detect_gps_manipulation t (stubGps t)).overall_manipulation_probability = 1/10 ∧
      (detect_gps_manipulation t (stubGps t)).suspicious_patterns = []) ∧
    (∀ (t elapsed : ℚ) (reads : Nat → Option Frame),
      asStr (getF (verify_geospatial_authenticity ⟨0, reads⟩ t t elapsed)
        "verification_status") = some "uncertain" ∧
      asNum (getF (verify_geospatial_authenticity ⟨0, reads⟩ t t elapsed)
        "verification_confidence") = some (9/20)) := by
  have hmp : ∀ t : ℚ,
      (detect_gps_manipulation t (stubGps t)).overall_manipulation_probability = 1/10 := by
    intro t
    norm_num [detect_gps_manipulation, stubGps, abs_of_nonneg]
  have hsusp : ∀ t : ℚ,
      (detect_gps_manipulation t (stubGps t)).suspicious_patterns = [] := by
    intro t
    norm_num [detect_gps_manipulation, stubGps]
  have hcs : ∀ (f : Frame) (fs : List Frame),
      (verify_location_consistency_frames (f :: fs)).consistency_score = 69/100 := by
    intro f fs
    have hproj : (verify_location_consistency_frames (f :: fs)).consistency_score =
        calculate_location_consistency stubIndicators := rfl
    have l1 : lookupMetric stubIndicators "indicators_found" = some (3/5) := rfl
    have l2 : lookupMetric stubIndicators "consistency" = some (4/5) := rfl
    have l3 : lookupMetric stubIndicators "landmark_detection" = some (7/10) := rfl
    have l4 : lookupMetric stubIndicators "text_recognition" = some (1/2) := rfl
    have hempty : stubIndicators.isEmpty = false := rfl
    rw [hproj]
    simp only [calculate_location_consistency, hempty, Bool.false_eq_true, if_false,
      List.foldl_cons, List.foldl_nil, l1, l2, l3, l4]
    norm_num
  have hcs0 : (verify_location_consistency_frames ([] : List Frame)).consistency_score = 0 := by
    have hproj : (verify_location_consistency_frames ([] : List Frame)).consistency_score =
        calculate_location_consistency [("indicators_found", 0), ("consistency", 0)] := rfl
    have l1 : lookupMetric [(("indicators_found" : String), (0 : ℚ)), ("consistency", 0)]
        "indicators_found" = some 0 := rfl
    have l2 : lookupMetric [(("indicators_found" : String), (0 : ℚ)), ("consistency", 0)]
        "consistency" = some 0 := rfl
    have l3 : lookupMetric [(("indicators_found" : String), (0 : ℚ)), ("consistency", 0)]
        "landmark_detection" = none := rfl
    have l4 : lookupMetric [(("indicators_found" : String), (0 : ℚ)), ("consistency", 0)]
        "text_recognition" = none := rfl
    rw [hproj]
    simp only [calculate_location_consistency, List.isEmpty, if_false,
      List.foldl_cons, List.foldl_nil, l1, l2, l3, l4]
    norm_num
  refine ⟨fun t v v' => ⟨rfl, rfl, rfl, rfl, rfl, rfl, rfl, rfl, rfl⟩, ?_, ?_⟩
  · intro t elapsed f fs
    have hst : asStr (getF (verify_geo_core (some (stubGps t)) (f :: fs) t elapsed)
        "verification_status") = some (geoStatus (verification_confidence_of
          (verify_location_consistency_frames (f :: fs)).consistency_score
          (detect_gps_manipulation t (stubGps t)).overall_manipulation_probability)) := rfl
    have hcf : asNum (getF (verify_geo_core (some (stubGps t)) (f :: fs) t elapsed)
        "verification_confidence") = some (verification_confidence_of
          (verify_location_consistency_frames (f :: fs)).consistency_score
          (detect_gps_manipulation t (stubGps t)).overall_manipulation_probability) := rfl
    refine ⟨?_, ?_, hcs f fs, hmp t, hsusp t⟩
    · rw [hst, hcs f fs, hmp t]
      norm_num [verification_confidence_of, geoStatus]
    · rw [hcf, hcs f fs, hmp t]
      norm_num [verification_confidence_of]
  · intro t elapsed reads
    have hframes : extract_frames ⟨0, reads⟩ 20 = [] := rfl
    have hst : asStr (getF (verify_geospatial_authenticity ⟨0, reads⟩ t t elapsed)
        "verification_status") = some (geoStatus (verification_confidence_of
          (verify_location_consistency_frames ([] : List Frame)).consistency_score
          (detect_gps_manipulation t (stubGps t)).overall_manipulation_probability)) := rfl
    have hcf : asNum (getF (verify_geospatial_authenticity ⟨0, reads⟩ t t elapsed)
        "verification_confidence") = some (verification_confidence_of
          (verify_location_consistency_frames ([] : List Frame)).consistency_score
          (detect_gps_manipulation t (stubGps t)).overall_manipulation_probability) := rfl
    constructor
    · rw [hst, hcs0, hmp t]
      norm_num [verification_confidence_of, geoStatus]
    · rw [hcf, hcs0, hmp t]
      norm_num [verification_confidence_of]

/-- Witness for C8: `T = 7`, every read succeeds, `max_frames = 2`
(stride `⌊7/2⌋ = 3`, so positions 0 and 3 are kept). -/
theorem extract_frames_stride_spec_witness :
    1 ≤ 2 ∧
    (extract_frames ⟨7, fun i => some i⟩ 2 =
      ((List.range 7).filterMap
        fun i => if i % (Nat.max 1 (7 / 2)) = 0 then some i else none).take 2 ∧
    (extract_frames ⟨7, fun i => some i⟩ 2).length ≤ 2 ∧
    (extract_frames ⟨7, fun i => some i⟩ 2).length ≤ 7 ∧
    (7 = 0 → extract_frames ⟨7, fun i => some i⟩ 2 = []) ∧
    ((∀ i : Nat, (some i : Option Frame) = none) → extract_frames ⟨7, fun i => some i⟩ 2 = [])) :=
  ⟨by decide, extract_frames_stride_spec 7 (fun i => some i) 2 (by decide)⟩

end DeepSecure
